import Mathlib

/-!
# DistroVitals Health Analyzer — verification development

Shallow embedding of the scoring engine and snapshot aggregation layer of
the DistroVitals repository (`crates/analyzer/src/lib.rs`), together with
theorems settling the specification's claims about it.

Modelling conventions:
* Rust `i64` counts are modelled as `Int` (no wrapping arithmetic appears
  in the source).
* Rust `f64` scores are modelled as exact rationals `ℚ`.  Every score in
  the analyzer is a weighted sum of small decimal constants
  (bucket values 20.0 … 100.0; weights 0.3 … 0.7), so `ℚ` is the intended
  real-number meaning of the computation.
* `DateTime<Utc>` timestamps are modelled as `Int` day numbers; the
  ambient clock `Utc::now()` becomes an explicit parameter `now`, and
  `(now - last).num_days()` becomes `now - last`.
* Fallible database access (`sqlx`) is modelled by `Except` values stored
  in a `Database` record; `?`-propagation becomes `Except` bind.
-/

namespace DistroVitals

/-- Embedding of `GithubSnapshot` (crates/database/src/models.rs). -/
structure GithubSnapshot where
  id : Int
  distro_id : Int
  repo_name : String
  stars : Int
  forks : Int
  open_issues : Int
  open_prs : Int
  commits_30d : Int
  commits_365d : Int
  contributors_30d : Int
  last_commit_at : Option Int
  collected_at : Int
  deriving Repr, DecidableEq

/-- Embedding of `CommunitySnapshot` (crates/database/src/models.rs).
`response_time_avg_hours` is an `f64` field unused by the analyzer;
it is modelled as `ℚ`. -/
structure CommunitySnapshot where
  id : Int
  distro_id : Int
  source : String
  active_users_30d : Option Int
  posts_30d : Option Int
  response_time_avg_hours : Option ℚ
  collected_at : Int
  deriving DecidableEq

/-- Embedding of `ReleaseSnapshot` (crates/database/src/models.rs). -/
structure ReleaseSnapshot where
  id : Int
  distro_id : Int
  repo_name : String
  tag_name : String
  release_name : Option String
  published_at : Option Int
  is_prerelease : Bool
  collected_at : Int
  deriving Repr, DecidableEq

/-- Embedding of `HealthScore` (crates/database/src/models.rs). -/
structure HealthScore where
  id : Int
  distro_id : Int
  overall_score : ℚ
  development_score : ℚ
  community_score : ℚ
  maintenance_score : ℚ
  trend : String
  calculated_at : Int
  deriving DecidableEq

/-- Embedding of `NewHealthScore` (crates/database/src/models.rs). -/
structure NewHealthScore where
  distro_id : Int
  overall_score : ℚ
  development_score : ℚ
  community_score : ℚ
  maintenance_score : ℚ
  trend : String
  deriving DecidableEq

/-! ## Bucket functions

Each Rust `match` on an `i64` total with inclusive ranges
(`0..=10 => 20.0, …, _ => 95.0`) is embedded as a chain of `if`s with the
same inclusive bounds; the final catch-all arm (which in Rust also
receives any negative total) is the final `else`. -/

/-- Commit bucket of `calculate_development_score` (analyzer lib.rs:68). -/
def commit_score (total_commits : Int) : ℚ :=
  if 0 ≤ total_commits ∧ total_commits ≤ 10 then 20
  else if 11 ≤ total_commits ∧ total_commits ≤ 50 then 40
  else if 51 ≤ total_commits ∧ total_commits ≤ 200 then 60
  else if 201 ≤ total_commits ∧ total_commits ≤ 500 then 80
  else 95

/-- Contributor bucket of `calculate_development_score` (analyzer lib.rs:76). -/
def contributor_score (total_contributors : Int) : ℚ :=
  if 0 ≤ total_contributors ∧ total_contributors ≤ 2 then 20
  else if 3 ≤ total_contributors ∧ total_contributors ≤ 10 then 40
  else if 11 ≤ total_contributors ∧ total_contributors ≤ 30 then 60
  else if 31 ≤ total_contributors ∧ total_contributors ≤ 100 then 80
  else 95

/-- Star bucket of `calculate_community_score` (analyzer lib.rs:97). -/
def star_score (total_stars : Int) : ℚ :=
  if 0 ≤ total_stars ∧ total_stars ≤ 100 then 20
  else if 101 ≤ total_stars ∧ total_stars ≤ 1000 then 40
  else if 1001 ≤ total_stars ∧ total_stars ≤ 5000 then 60
  else if 5001 ≤ total_stars ∧ total_stars ≤ 20000 then 80
  else 95

/-- Fork bucket of `calculate_community_score` (analyzer lib.rs:105). -/
def fork_score (total_forks : Int) : ℚ :=
  if 0 ≤ total_forks ∧ total_forks ≤ 10 then 20
  else if 11 ≤ total_forks ∧ total_forks ≤ 100 then 40
  else if 101 ≤ total_forks ∧ total_forks ≤ 500 then 60
  else if 501 ≤ total_forks ∧ total_forks ≤ 2000 then 80
  else 95

/-- Subscriber bucket of `calculate_reddit_score` (analyzer lib.rs:154). -/
def subscriber_score (total_subscribers : Int) : ℚ :=
  if 0 ≤ total_subscribers ∧ total_subscribers ≤ 1000 then 20
  else if 1001 ≤ total_subscribers ∧ total_subscribers ≤ 5000 then 30
  else if 5001 ≤ total_subscribers ∧ total_subscribers ≤ 15000 then 45
  else if 15001 ≤ total_subscribers ∧ total_subscribers ≤ 50000 then 60
  else if 50001 ≤ total_subscribers ∧ total_subscribers ≤ 100000 then 75
  else if 100001 ≤ total_subscribers ∧ total_subscribers ≤ 200000 then 85
  else 95

/-- Post-activity bucket of `calculate_reddit_score` (analyzer lib.rs:165). -/
def activity_score (total_posts : Int) : ℚ :=
  if 0 ≤ total_posts ∧ total_posts ≤ 10 then 20
  else if 11 ≤ total_posts ∧ total_posts ≤ 30 then 40
  else if 31 ≤ total_posts ∧ total_posts ≤ 60 then 60
  else if 61 ≤ total_posts ∧ total_posts ≤ 100 then 80
  else 95

/-- Inverted open-issue bucket of `calculate_maintenance_score`
(analyzer lib.rs:188). -/
def issue_score (total_issues : Int) : ℚ :=
  if 0 ≤ total_issues ∧ total_issues ≤ 10 then 90
  else if 11 ≤ total_issues ∧ total_issues ≤ 50 then 80
  else if 51 ≤ total_issues ∧ total_issues ≤ 200 then 70
  else if 201 ≤ total_issues ∧ total_issues ≤ 500 then 50
  else if 501 ≤ total_issues ∧ total_issues ≤ 1000 then 30
  else 20

/-- Inverted open-PR bucket of `calculate_maintenance_score`
(analyzer lib.rs:197). -/
def pr_score (total_prs : Int) : ℚ :=
  if 0 ≤ total_prs ∧ total_prs ≤ 5 then 90
  else if 6 ≤ total_prs ∧ total_prs ≤ 20 then 80
  else if 21 ≤ total_prs ∧ total_prs ≤ 50 then 70
  else if 51 ≤ total_prs ∧ total_prs ≤ 100 then 50
  else 30

/-- Recency bucket of `calculate_maintenance_score` (analyzer lib.rs:212),
on `days_ago = now - last_commit_at`. -/
def recency_bucket (days_ago : Int) : ℚ :=
  if 0 ≤ days_ago ∧ days_ago ≤ 7 then 100
  else if 8 ≤ days_ago ∧ days_ago ≤ 30 then 80
  else if 31 ≤ days_ago ∧ days_ago ≤ 90 then 60
  else if 91 ≤ days_ago ∧ days_ago ≤ 180 then 40
  else 20

/-! ## Scoring engine (`impl Analyzer`) -/

/-- Embedding of `Analyzer::calculate_development_score` (analyzer lib.rs:59). -/
def calculate_development_score (github : List GithubSnapshot) : ℚ :=
  if github = [] then 50
  else
    let total_commits : Int := (github.map (fun s => s.commits_30d)).sum
    let total_contributors : Int := (github.map (fun s => s.contributors_30d)).sum
    min (commit_score total_commits * 0.6 + contributor_score total_contributors * 0.4) 100

/-- The GitHub (stars + forks) component of
`Analyzer::calculate_community_score`: the `github_score` let-binding of
analyzer lib.rs:91-114, hoisted into a named function. -/
def github_component (github : List GithubSnapshot) : ℚ :=
  if github = [] then 50
  else
    let total_stars : Int := (github.map (fun s => s.stars)).sum
    let total_forks : Int := (github.map (fun s => s.forks)).sum
    star_score total_stars * 0.5 + fork_score total_forks * 0.5

/-- Embedding of Rust's `str::starts_with`: the pattern is a prefix of
the receiver's character sequence. -/
def starts_with (s pat : String) : Bool :=
  pat.data.isPrefixOf s.data

/-- Embedding of `Analyzer::calculate_reddit_score` (analyzer lib.rs:129). -/
def calculate_reddit_score (community : List CommunitySnapshot) : ℚ :=
  let reddit_snapshots := community.filter (fun c => starts_with c.source "reddit:")
  if reddit_snapshots = [] then 0
  else
    let total_subscribers : Int := (reddit_snapshots.filterMap (fun s => s.active_users_30d)).sum
    let total_posts : Int := (reddit_snapshots.filterMap (fun s => s.posts_30d)).sum
    subscriber_score total_subscribers * 0.7 + activity_score total_posts * 0.3

/-- Embedding of `Analyzer::calculate_community_score` (analyzer lib.rs:89). -/
def calculate_community_score (github : List GithubSnapshot)
    (community : List CommunitySnapshot) : ℚ :=
  let github_score := github_component github
  let reddit_score := calculate_reddit_score community
  if 0 < reddit_score then min (github_score * 0.4 + reddit_score * 0.6) 100
  else min github_score 100

/-- Embedding of `Analyzer::calculate_maintenance_score` (analyzer lib.rs:178);
`now` is the day number of `Utc::now()`. -/
def calculate_maintenance_score (github : List GithubSnapshot) (now : Int) : ℚ :=
  if github = [] then 50
  else
    let total_issues : Int := (github.map (fun s => s.open_issues)).sum
    let total_prs : Int := (github.map (fun s => s.open_prs)).sum
    let recency_score : ℚ :=
      match (github.filterMap (fun s => s.last_commit_at)).max? with
      | some last => recency_bucket (now - last)
      | none => 50
    min (issue_score total_issues * 0.3 + pr_score total_prs * 0.3 + recency_score * 0.4) 100

/-- Embedding of `Analyzer::determine_trend` (analyzer lib.rs:226). -/
def determine_trend (current : ℚ) (previous : Option HealthScore) : String :=
  match previous with
  | some prev =>
    let diff := current - prev.overall_score
    if 2 < diff then "up"
    else if diff < -2 then "down"
    else "stable"
  | none => "stable"

/-- The overall-score combination of `Analyzer::calculate_health_score`
(analyzer lib.rs:37-39). -/
def overall_score (development_score community_score maintenance_score : ℚ) : ℚ :=
  development_score * 0.4 + community_score * 0.3 + maintenance_score * 0.3

/-- The pure part of `Analyzer::calculate_health_score` (analyzer
lib.rs:33-50): sub-scores, overall score, trend, and the score record
built from them. -/
def compute_new_health_score (distro_id : Int) (github : List GithubSnapshot)
    (community : List CommunitySnapshot) (previous : Option HealthScore)
    (now : Int) : NewHealthScore :=
  let development_score := calculate_development_score github
  let community_score := calculate_community_score github community
  let maintenance_score := calculate_maintenance_score github now
  let overall := overall_score development_score community_score maintenance_score
  { distro_id := distro_id
    overall_score := overall
    development_score := development_score
    community_score := community_score
    maintenance_score := maintenance_score
    trend := determine_trend overall previous }

/-- Opaque stand-in for `distrovitals_database::DatabaseError`. -/
structure DatabaseError where
  message : String
  deriving DecidableEq

/-- Embedding of `AnalyzerError` (analyzer lib.rs:12-19). -/
inductive AnalyzerError where
  | database : DatabaseError → AnalyzerError
  | insufficientData : AnalyzerError
  deriving DecidableEq

/-- The store operations `Analyzer::calculate_health_score` performs,
with their (possibly failing) results for one `distro_id`. -/
structure Database where
  get_latest_github_snapshots : Except DatabaseError (List GithubSnapshot)
  get_latest_community_snapshots : Except DatabaseError (List CommunitySnapshot)
  get_latest_health_score : Except DatabaseError (Option HealthScore)
  insert_health_score : NewHealthScore → Except DatabaseError Int

/-- Embedding of `Analyzer::calculate_health_score` (analyzer lib.rs:28):
each `db.…().await?` is written as the match it desugars to, converting
the store error through `AnalyzerError::Database`. -/
def calculate_health_score (db : Database) (distro_id : Int) (now : Int) :
    Except AnalyzerError Int :=
  match db.get_latest_github_snapshots with
  | Except.error e => Except.error (AnalyzerError.database e)
  | Except.ok github_snapshots =>
    match db.get_latest_community_snapshots with
    | Except.error e => Except.error (AnalyzerError.database e)
    | Except.ok community_snapshots =>
      match db.get_latest_health_score with
      | Except.error e => Except.error (AnalyzerError.database e)
      | Except.ok previous_score =>
        let score := compute_new_health_score distro_id github_snapshots
            community_snapshots previous_score now
        match db.insert_health_score score with
        | Except.error e => Except.error (AnalyzerError.database e)
        | Except.ok id => Except.ok id

/-! ## Snapshot aggregator (`RawMetrics`) -/

/-- Embedding of `RawMetrics` (analyzer lib.rs:245). -/
structure RawMetrics where
  repos_tracked : Int
  total_stars : Int
  total_forks : Int
  total_contributors : Int
  commits_30d : Int
  open_issues : Int
  open_prs : Int
  total_releases : Int
  releases_30d : Int
  latest_release : Option String
  days_since_release : Option Int
  reddit_subscribers : Int
  reddit_posts_30d : Int
  subreddit : Option String
  deriving Repr, DecidableEq

/-- Embedding of `RawMetrics::from_github_snapshots` (analyzer lib.rs:265). -/
def RawMetrics.from_github_snapshots (snapshots : List GithubSnapshot) : RawMetrics :=
  { repos_tracked := (snapshots.length : Int)
    total_stars := (snapshots.map (fun s => s.stars)).sum
    total_forks := (snapshots.map (fun s => s.forks)).sum
    total_contributors := (snapshots.map (fun s => s.contributors_30d)).sum
    commits_30d := (snapshots.map (fun s => s.commits_30d)).sum
    open_issues := (snapshots.map (fun s => s.open_issues)).sum
    open_prs := (snapshots.map (fun s => s.open_prs)).sum
    total_releases := 0
    releases_30d := 0
    latest_release := none
    days_since_release := none
    reddit_subscribers := 0
    reddit_posts_30d := 0
    subreddit := none }

/-- Rust's derived `Ord` on `Option<DateTime<Utc>>`: `None` is below
every `Some`, and `Some`s compare by value. -/
def published_le (a b : Option Int) : Bool :=
  match a, b with
  | none, _ => true
  | some _, none => false
  | some x, some y => decide (x ≤ y)

/-- One step of `Iterator::max_by_key(|r| r.published_at)`: keep the
current maximum, preferring the later element on ties (Rust's documented
tie-breaking). -/
def max_step (acc : Option ReleaseSnapshot) (r : ReleaseSnapshot) : Option ReleaseSnapshot :=
  match acc with
  | none => some r
  | some best =>
    if published_le best.published_at r.published_at then some r else some best

/-- `Iterator::max_by_key(|r| r.published_at)` over release snapshots. -/
def max_by_published (releases : List ReleaseSnapshot) : Option ReleaseSnapshot :=
  releases.foldl max_step none

/-- Embedding of `RawMetrics::with_releases` (analyzer lib.rs:303);
`now` is the day number of `Utc::now()`. -/
def RawMetrics.with_releases (m : RawMetrics) (releases : List ReleaseSnapshot)
    (now : Int) : RawMetrics :=
  let thirty_days_ago := now - 30
  let recent := ((releases.filter (fun r => !r.is_prerelease)).filter
      (fun r => (r.published_at.map (fun d => decide (thirty_days_ago < d))).getD false)).length
  let base := { m with total_releases := (releases.length : Int),
                       releases_30d := (recent : Int) }
  match max_by_published (releases.filter (fun r => !r.is_prerelease)) with
  | some latest =>
    let base2 := { base with latest_release := some latest.tag_name }
    match latest.published_at with
    | some published => { base2 with days_since_release := some (now - published) }
    | none => base2
  | none => base

/-! ## Refinement definitions written from the spec's words -/

/-- Bucket written from the spec sentence
"commit buckets (inclusive ranges → score): [0,10]→20, [11,50]→40,
[51,200]→60, [201,500]→80, [501,∞)→95", read over the natural totals the
spec speaks of. -/
def spec_commit_bucket (n : Int) : ℚ :=
  if n ≤ 10 then 20
  else if n ≤ 50 then 40
  else if n ≤ 200 then 60
  else if n ≤ 500 then 80
  else 95

/-- Bucket written from the spec sentence
"contributor buckets: [0,2]→20, [3,10]→40, [11,30]→60, [31,100]→80,
[101,∞)→95". -/
def spec_contributor_bucket (n : Int) : ℚ :=
  if n ≤ 2 then 20
  else if n ≤ 10 then 40
  else if n ≤ 30 then 60
  else if n ≤ 100 then 80
  else 95

/-- The clamp to [0,100] the spec describes for the overall score. -/
def clamp_0_100 (x : ℚ) : ℚ := min (max x 0) 100

/-! ## Concrete data used by witnesses and counterexamples -/

/-- A concrete activity snapshot used in witnesses. -/
def ghSnapA : GithubSnapshot :=
  { id := 1, distro_id := 7, repo_name := "archlinux/svntogit",
    stars := 100, forks := 2, open_issues := 3, open_prs := 1,
    commits_30d := 11, commits_365d := 120, contributors_30d := 3,
    last_commit_at := some 998, collected_at := 1000 }

/-- A second concrete activity snapshot used in witnesses. -/
def ghSnapB : GithubSnapshot :=
  { id := 2, distro_id := 7, repo_name := "archlinux/packages",
    stars := 50, forks := 30, open_issues := 20, open_prs := 4,
    commits_30d := 40, commits_365d := 300, contributors_30d := 9,
    last_commit_at := none, collected_at := 1000 }

/-- A concrete Reddit community snapshot used in witnesses. -/
def cmSnapReddit : CommunitySnapshot :=
  { id := 3, distro_id := 7, source := "reddit:r/archlinux",
    active_users_30d := some 60000, posts_30d := some 40,
    response_time_avg_hours := none, collected_at := 1000 }

/-- A concrete previous score record used in witnesses. -/
def prevScoreW : HealthScore :=
  { id := 4, distro_id := 7, overall_score := 42.2,
    development_score := 20, community_score := 20, maintenance_score := 94,
    trend := "stable", calculated_at := 900 }

/-- A database whose every operation succeeds, used in witnesses. -/
def dbW : Database :=
  { get_latest_github_snapshots := Except.ok []
    get_latest_community_snapshots := Except.ok []
    get_latest_health_score := Except.ok none
    insert_health_score := fun _ => Except.ok 1 }

/-- A concrete prerelease-only release snapshot used in the C10
counterexample. -/
def relPre : ReleaseSnapshot :=
  { id := 5, distro_id := 7, repo_name := "archlinux/installer",
    tag_name := "v2.0-rc1", release_name := none,
    published_at := none, is_prerelease := true, collected_at := 1000 }

/-- A concrete non-prerelease release snapshot with unknown publish date,
used in witnesses. -/
def relShip : ReleaseSnapshot :=
  { id := 6, distro_id := 7, repo_name := "archlinux/installer",
    tag_name := "v1.0", release_name := some "one",
    published_at := none, is_prerelease := false, collected_at := 1000 }

/-! ## Bucket lemmas -/

lemma commit_score_eq_spec (n : Int) (hn : 0 ≤ n) :
    commit_score n = spec_commit_bucket n := by
  simp only [commit_score, spec_commit_bucket]
  split_ifs <;> first | rfl | omega

lemma contributor_score_eq_spec (n : Int) (hn : 0 ≤ n) :
    contributor_score n = spec_contributor_bucket n := by
  simp only [contributor_score, spec_contributor_bucket]
  split_ifs <;> first | rfl | omega

lemma commit_score_le_95 (n : Int) : commit_score n ≤ 95 := by
  simp only [commit_score]; split_ifs <;> norm_num

lemma commit_score_ge_20 (n : Int) : 20 ≤ commit_score n := by
  simp only [commit_score]; split_ifs <;> norm_num

lemma contributor_score_le_95 (n : Int) : contributor_score n ≤ 95 := by
  simp only [contributor_score]; split_ifs <;> norm_num

lemma contributor_score_ge_20 (n : Int) : 20 ≤ contributor_score n := by
  simp only [contributor_score]; split_ifs <;> norm_num

/-! ## Claim C1 -/

/-- C1: for every non-empty list of activity (GitHub) snapshots, the
development sub-score is 0.6 × the commit bucket of the summed
`commits_30d` plus 0.4 × the contributor bucket of the summed
`contributors_30d`, where the buckets are exactly the inclusive-range
step functions of the spec ([0,10]→20, [11,50]→40, [51,200]→60,
[201,500]→80, [501,∞)→95 for commits; [0,2]→20, [3,10]→40, [11,30]→60,
[31,100]→80, [101,∞)→95 for contributors). -/
theorem C1_development_score_formula (github : List GithubSnapshot)
    (hne : github ≠ [])
    (hc : 0 ≤ (github.map (fun s => s.commits_30d)).sum)
    (hk : 0 ≤ (github.map (fun s => s.contributors_30d)).sum) :
    calculate_development_score github =
      0.6 * spec_commit_bucket ((github.map (fun s => s.commits_30d)).sum)
        + 0.4 * spec_contributor_bucket ((github.map (fun s => s.contributors_30d)).sum) := by
  simp only [calculate_development_score, if_neg hne]
  rw [commit_score_eq_spec _ hc, contributor_score_eq_spec _ hk]
  have h1 : spec_commit_bucket ((github.map (fun s => s.commits_30d)).sum) ≤ 95 := by
    rw [← commit_score_eq_spec _ hc]; exact commit_score_le_95 _
  have h2 : spec_contributor_bucket ((github.map (fun s => s.contributors_30d)).sum) ≤ 95 := by
    rw [← contributor_score_eq_spec _ hk]; exact contributor_score_le_95 _
  have hmin : spec_commit_bucket ((github.map (fun s => s.commits_30d)).sum) * 0.6
      + spec_contributor_bucket ((github.map (fun s => s.contributors_30d)).sum) * 0.4 ≤ 100 := by
    nlinarith
  rw [min_eq_left hmin]
  ring

/-- Witness for C1 at a concrete one-snapshot list. -/
theorem C1_witness :
    calculate_development_score [ghSnapA] =
      0.6 * spec_commit_bucket (([ghSnapA].map (fun s => s.commits_30d)).sum)
        + 0.4 * spec_contributor_bucket (([ghSnapA].map (fun s => s.contributors_30d)).sum) :=
  C1_development_score_formula [ghSnapA] (List.cons_ne_nil _ _) (by decide) (by decide)

/-! ## Further bucket range lemmas -/

lemma star_score_ge_20 (n : Int) : 20 ≤ star_score n := by
  simp only [star_score]; split_ifs <;> norm_num

lemma star_score_le_95 (n : Int) : star_score n ≤ 95 := by
  simp only [star_score]; split_ifs <;> norm_num

lemma fork_score_ge_20 (n : Int) : 20 ≤ fork_score n := by
  simp only [fork_score]; split_ifs <;> norm_num

lemma fork_score_le_95 (n : Int) : fork_score n ≤ 95 := by
  simp only [fork_score]; split_ifs <;> norm_num

lemma subscriber_score_ge_20 (n : Int) : 20 ≤ subscriber_score n := by
  simp only [subscriber_score]; split_ifs <;> norm_num

lemma subscriber_score_le_95 (n : Int) : subscriber_score n ≤ 95 := by
  simp only [subscriber_score]; split_ifs <;> norm_num

lemma activity_score_ge_20 (n : Int) : 20 ≤ activity_score n := by
  simp only [activity_score]; split_ifs <;> norm_num

lemma activity_score_le_95 (n : Int) : activity_score n ≤ 95 := by
  simp only [activity_score]; split_ifs <;> norm_num

lemma issue_score_ge_20 (n : Int) : 20 ≤ issue_score n := by
  simp only [issue_score]; split_ifs <;> norm_num

lemma issue_score_le_90 (n : Int) : issue_score n ≤ 90 := by
  simp only [issue_score]; split_ifs <;> norm_num

lemma pr_score_ge_30 (n : Int) : 30 ≤ pr_score n := by
  simp only [pr_score]; split_ifs <;> norm_num

lemma pr_score_le_90 (n : Int) : pr_score n ≤ 90 := by
  simp only [pr_score]; split_ifs <;> norm_num

lemma recency_bucket_ge_20 (n : Int) : 20 ≤ recency_bucket n := by
  simp only [recency_bucket]; split_ifs <;> norm_num

lemma recency_bucket_le_100 (n : Int) : recency_bucket n ≤ 100 := by
  simp only [recency_bucket]; split_ifs <;> norm_num

/-! ## Sub-score range lemmas -/

lemma development_score_bounds (github : List GithubSnapshot) :
    0 ≤ calculate_development_score github ∧ calculate_development_score github ≤ 100 := by
  unfold calculate_development_score
  split_ifs with h
  · norm_num
  · constructor
    · have h1 := commit_score_ge_20 ((github.map (fun s => s.commits_30d)).sum)
      have h2 := contributor_score_ge_20 ((github.map (fun s => s.contributors_30d)).sum)
      have : (0 : ℚ) ≤ commit_score ((github.map (fun s => s.commits_30d)).sum) * 0.6
          + contributor_score ((github.map (fun s => s.contributors_30d)).sum) * 0.4 := by
        nlinarith
      exact le_min this (by norm_num)
    · exact min_le_right _ _

lemma github_component_bounds (github : List GithubSnapshot) :
    20 ≤ github_component github ∧ github_component github ≤ 95 := by
  unfold github_component
  split_ifs with h
  · norm_num
  · have h1 := star_score_ge_20 ((github.map (fun s => s.stars)).sum)
    have h2 := star_score_le_95 ((github.map (fun s => s.stars)).sum)
    have h3 := fork_score_ge_20 ((github.map (fun s => s.forks)).sum)
    have h4 := fork_score_le_95 ((github.map (fun s => s.forks)).sum)
    constructor <;> nlinarith

lemma reddit_score_bounds (community : List CommunitySnapshot) :
    0 ≤ calculate_reddit_score community ∧ calculate_reddit_score community ≤ 95 := by
  simp only [calculate_reddit_score]
  split_ifs with h
  · norm_num
  · have h1 := subscriber_score_ge_20
      (((community.filter (fun c => starts_with c.source "reddit:")).filterMap
        (fun s => s.active_users_30d)).sum)
    have h2 := subscriber_score_le_95
      (((community.filter (fun c => starts_with c.source "reddit:")).filterMap
        (fun s => s.active_users_30d)).sum)
    have h3 := activity_score_ge_20
      (((community.filter (fun c => starts_with c.source "reddit:")).filterMap
        (fun s => s.posts_30d)).sum)
    have h4 := activity_score_le_95
      (((community.filter (fun c => starts_with c.source "reddit:")).filterMap
        (fun s => s.posts_30d)).sum)
    constructor <;> nlinarith

lemma community_score_bounds (github : List GithubSnapshot)
    (community : List CommunitySnapshot) :
    0 ≤ calculate_community_score github community ∧
      calculate_community_score github community ≤ 100 := by
  simp only [calculate_community_score]
  have hg1 := (github_component_bounds github).1
  have hg2 := (github_component_bounds github).2
  have hr1 := (reddit_score_bounds community).1
  have hr2 := (reddit_score_bounds community).2
  split_ifs with h
  · exact ⟨le_min (by nlinarith) (by norm_num), min_le_right _ _⟩
  · exact ⟨le_min (by linarith) (by norm_num), min_le_right _ _⟩

lemma maintenance_score_bounds (github : List GithubSnapshot) (now : Int) :
    0 ≤ calculate_maintenance_score github now ∧
      calculate_maintenance_score github now ≤ 100 := by
  simp only [calculate_maintenance_score]
  split_ifs with h
  · norm_num
  · have h1 := issue_score_ge_20 ((github.map (fun s => s.open_issues)).sum)
    have h2 := pr_score_ge_30 ((github.map (fun s => s.open_prs)).sum)
    have h3 : (20 : ℚ) ≤ (match (github.filterMap (fun s => s.last_commit_at)).max? with
        | some last => recency_bucket (now - last)
        | none => 50) := by
      cases hm : (github.filterMap (fun s => s.last_commit_at)).max? with
      | none => norm_num
      | some last => exact recency_bucket_ge_20 _
    refine ⟨le_min (by nlinarith) (by norm_num), min_le_right _ _⟩

lemma overall_score_bounds_of {d c m : ℚ} (hd0 : 0 ≤ d) (hd1 : d ≤ 100)
    (hc0 : 0 ≤ c) (hc1 : c ≤ 100) (hm0 : 0 ≤ m) (hm1 : m ≤ 100) :
    0 ≤ overall_score d c m ∧ overall_score d c m ≤ 100 := by
  unfold overall_score; constructor <;> nlinarith

/-! ## Claim C3 -/

/-- C3: with a previous record, the trend is "up" iff the difference
exceeds 2.0, "down" iff it is below −2.0, "stable" iff it lies in
[−2.0, 2.0] (so the boundary values 2.0 and −2.0 give "stable"); with no
previous record the trend is unconditionally "stable". -/
theorem C3_trend_thresholds (current : ℚ) (prev : HealthScore) :
    (determine_trend current (some prev) = "up" ↔ 2 < current - prev.overall_score) ∧
    (determine_trend current (some prev) = "down" ↔ current - prev.overall_score < -2) ∧
    (determine_trend current (some prev) = "stable" ↔
      -2 ≤ current - prev.overall_score ∧ current - prev.overall_score ≤ 2) ∧
    (current - prev.overall_score = 2 → determine_trend current (some prev) = "stable") ∧
    (current - prev.overall_score = -2 → determine_trend current (some prev) = "stable") ∧
    determine_trend current none = "stable" := by
  have hud : ("up" : String) ≠ "down" := by decide
  have hus : ("up" : String) ≠ "stable" := by decide
  have hdu : ("down" : String) ≠ "up" := by decide
  have hds : ("down" : String) ≠ "stable" := by decide
  have hsu : ("stable" : String) ≠ "up" := by decide
  have hsd : ("stable" : String) ≠ "down" := by decide
  simp only [determine_trend]
  split_ifs with h1 h2
  · refine ⟨iff_of_true rfl h1, iff_of_false hud (by linarith),
      iff_of_false hus (fun hb => by linarith [hb.2]), ?_, ?_, trivial⟩
    · intro h; exfalso; rw [h] at h1; norm_num at h1
    · intro h; exfalso; rw [h] at h1; norm_num at h1
  · refine ⟨iff_of_false hdu h1, iff_of_true rfl h2,
      iff_of_false hds (fun hb => by linarith [hb.1]), ?_, ?_, trivial⟩
    · intro h; exfalso; rw [h] at h2; norm_num at h2
    · intro h; exfalso; rw [h] at h2; norm_num at h2
  · refine ⟨iff_of_false hsu h1, iff_of_false hsd h2,
      iff_of_true rfl ⟨by linarith, by linarith⟩, fun _ => rfl, fun _ => rfl, trivial⟩

/-- Witness for C3: a boundary difference of exactly 2.0 yields "stable". -/
theorem C3_witness : determine_trend 44.2 (some prevScoreW) = "stable" :=
  (C3_trend_thresholds 44.2 prevScoreW).2.2.2.1 (by norm_num [prevScoreW])

/-! ## Claim C5 -/

/-- C5: for sub-scores each in [0,100], the engine's overall score equals
the weighted combination 0.4·development + 0.3·community +
0.3·maintenance clamped to [0,100] (the clamp being a no-op there). -/
theorem C5_overall_formula (d c m : ℚ) (hd0 : 0 ≤ d) (hd1 : d ≤ 100)
    (hc0 : 0 ≤ c) (hc1 : c ≤ 100) (hm0 : 0 ≤ m) (hm1 : m ≤ 100) :
    overall_score d c m = clamp_0_100 (0.4 * d + 0.3 * c + 0.3 * m) := by
  unfold overall_score clamp_0_100
  have h0 : (0 : ℚ) ≤ 0.4 * d + 0.3 * c + 0.3 * m := by nlinarith
  have h1 : 0.4 * d + 0.3 * c + 0.3 * m ≤ 100 := by nlinarith
  rw [max_eq_left h0, min_eq_left h1]
  ring

/-- Witness for C5 at the spec's end-to-end scenario A sub-scores. -/
theorem C5_witness : overall_score 20 20 94 = clamp_0_100 (0.4 * 20 + 0.3 * 20 + 0.3 * 94) :=
  C5_overall_formula 20 20 94 (by norm_num) (by norm_num) (by norm_num)
    (by norm_num) (by norm_num) (by norm_num)

/-! ## Claim C6 -/

/-- C6: with both snapshot lists empty, each sub-score is exactly 50.0
and the overall score is 50.0, for any previous record and any clock. -/
theorem C6_empty_inputs_neutral (distro_id : Int) (previous : Option HealthScore)
    (now : Int) :
    calculate_development_score [] = 50 ∧
    calculate_community_score [] [] = 50 ∧
    calculate_maintenance_score [] now = 50 ∧
    (compute_new_health_score distro_id [] [] previous now).development_score = 50 ∧
    (compute_new_health_score distro_id [] [] previous now).community_score = 50 ∧
    (compute_new_health_score distro_id [] [] previous now).maintenance_score = 50 ∧
    (compute_new_health_score distro_id [] [] previous now).overall_score = 50 := by
  have hdev : calculate_development_score [] = 50 := by
    simp [calculate_development_score]
  have hcomm : calculate_community_score [] [] = 50 := by
    norm_num [calculate_community_score, github_component, calculate_reddit_score]
  have hmaint : calculate_maintenance_score [] now = 50 := by
    simp [calculate_maintenance_score]
  refine ⟨hdev, hcomm, hmaint, ?_, ?_, ?_, ?_⟩ <;>
    norm_num [compute_new_health_score, hdev, hcomm, hmaint, overall_score]

/-! ## Claim C4 -/

/-- C4: for every snapshot input and any clock instant, each sub-score
and the overall score the engine combines them into lies in [0, 100]. -/
theorem C4_score_ranges (github : List GithubSnapshot)
    (community : List CommunitySnapshot) (now : Int) :
    (0 ≤ calculate_development_score github ∧ calculate_development_score github ≤ 100) ∧
    (0 ≤ calculate_community_score github community ∧
      calculate_community_score github community ≤ 100) ∧
    (0 ≤ calculate_maintenance_score github now ∧
      calculate_maintenance_score github now ≤ 100) ∧
    (0 ≤ overall_score (calculate_development_score github)
        (calculate_community_score github community)
        (calculate_maintenance_score github now) ∧
      overall_score (calculate_development_score github)
        (calculate_community_score github community)
        (calculate_maintenance_score github now) ≤ 100) := by
  have hd := development_score_bounds github
  have hc := community_score_bounds github community
  have hm := maintenance_score_bounds github now
  exact ⟨hd, hc, hm, overall_score_bounds_of hd.1 hd.2 hc.1 hc.2 hm.1 hm.2⟩

/-! ## Claim C7 -/

lemma commit_score_mono {a b : Int} (h0 : 0 ≤ a) (hab : a ≤ b) :
    commit_score a ≤ commit_score b := by
  simp only [commit_score]; split_ifs <;> first | (exfalso; omega) | norm_num

lemma contributor_score_mono {a b : Int} (h0 : 0 ≤ a) (hab : a ≤ b) :
    contributor_score a ≤ contributor_score b := by
  simp only [contributor_score]; split_ifs <;> first | (exfalso; omega) | norm_num

lemma star_score_mono {a b : Int} (h0 : 0 ≤ a) (hab : a ≤ b) :
    star_score a ≤ star_score b := by
  simp only [star_score]; split_ifs <;> first | (exfalso; omega) | norm_num

lemma fork_score_mono {a b : Int} (h0 : 0 ≤ a) (hab : a ≤ b) :
    fork_score a ≤ fork_score b := by
  simp only [fork_score]; split_ifs <;> first | (exfalso; omega) | norm_num

lemma subscriber_score_mono {a b : Int} (h0 : 0 ≤ a) (hab : a ≤ b) :
    subscriber_score a ≤ subscriber_score b := by
  simp only [subscriber_score]; split_ifs <;> first | (exfalso; omega) | norm_num

lemma activity_score_mono {a b : Int} (h0 : 0 ≤ a) (hab : a ≤ b) :
    activity_score a ≤ activity_score b := by
  simp only [activity_score]; split_ifs <;> first | (exfalso; omega) | norm_num

lemma issue_score_anti {a b : Int} (h0 : 0 ≤ a) (hab : a ≤ b) :
    issue_score b ≤ issue_score a := by
  simp only [issue_score]; split_ifs <;> first | (exfalso; omega) | norm_num

lemma pr_score_anti {a b : Int} (h0 : 0 ≤ a) (hab : a ≤ b) :
    pr_score b ≤ pr_score a := by
  simp only [pr_score]; split_ifs <;> first | (exfalso; omega) | norm_num

/-- C7: over the counts the metrics range over, every bucket function is
monotone — non-decreasing for commits, contributors, stars, forks,
subscribers and posts, non-increasing for the inverted open-issue and
open-PR buckets — and in particular commit totals 10 and 11 sit on the
20 / 40 boundary of the development commit bucket. -/
theorem C7_bucket_monotonicity (a b : Int) (h0 : 0 ≤ a) (hab : a ≤ b) :
    commit_score a ≤ commit_score b ∧
    contributor_score a ≤ contributor_score b ∧
    star_score a ≤ star_score b ∧
    fork_score a ≤ fork_score b ∧
    subscriber_score a ≤ subscriber_score b ∧
    activity_score a ≤ activity_score b ∧
    issue_score b ≤ issue_score a ∧
    pr_score b ≤ pr_score a ∧
    commit_score 10 = 20 ∧ commit_score 11 = 40 :=
  ⟨commit_score_mono h0 hab, contributor_score_mono h0 hab,
    star_score_mono h0 hab, fork_score_mono h0 hab,
    subscriber_score_mono h0 hab, activity_score_mono h0 hab,
    issue_score_anti h0 hab, pr_score_anti h0 hab,
    by norm_num [commit_score], by norm_num [commit_score]⟩

/-! ## Claim C2 -/

lemma reddit_score_pos_of_mem (community : List CommunitySnapshot)
    (h : ∃ c ∈ community, starts_with c.source "reddit:" = true) :
    0 < calculate_reddit_score community := by
  obtain ⟨c, hcmem, hcp⟩ := h
  have hcf : c ∈ community.filter (fun c => starts_with c.source "reddit:") :=
    List.mem_filter.mpr ⟨hcmem, hcp⟩
  have hne : community.filter (fun c => starts_with c.source "reddit:") ≠ [] := by
    intro hnil; rw [hnil] at hcf; exact absurd hcf (List.not_mem_nil _)
  simp only [calculate_reddit_score, if_neg hne]
  have h1 := subscriber_score_ge_20
    (((community.filter (fun c => starts_with c.source "reddit:")).filterMap
      (fun s => s.active_users_30d)).sum)
  have h2 := activity_score_ge_20
    (((community.filter (fun c => starts_with c.source "reddit:")).filterMap
      (fun s => s.posts_30d)).sum)
  nlinarith

lemma reddit_score_eq_zero_of_none (community : List CommunitySnapshot)
    (h : ¬ ∃ c ∈ community, starts_with c.source "reddit:" = true) :
    calculate_reddit_score community = 0 := by
  have hnil : community.filter (fun c => starts_with c.source "reddit:") = [] := by
    refine List.filter_eq_nil_iff.mpr (fun c hc hp => h ⟨c, hc, hp⟩)
  simp [calculate_reddit_score, hnil]

/-- C2: the community sub-score blends 0.4 × the platform (stars/forks)
component with 0.6 × the social (Reddit) component, clamped to at most
100, exactly when some community snapshot's source carries the
"reddit:" prefix; otherwise it is the platform component alone clamped
to 100.  The platform component is 0.5 × star bucket + 0.5 × fork bucket
of the summed totals, and is 50.0 on an empty activity list. -/
theorem C2_community_score_blend (github : List GithubSnapshot)
    (community : List CommunitySnapshot) :
    ((∃ c ∈ community, starts_with c.source "reddit:" = true) →
      calculate_community_score github community =
        min (0.4 * github_component github + 0.6 * calculate_reddit_score community) 100) ∧
    ((¬ ∃ c ∈ community, starts_with c.source "reddit:" = true) →
      calculate_community_score github community = min (github_component github) 100) ∧
    (github ≠ [] →
      github_component github =
        0.5 * star_score ((github.map (fun s => s.stars)).sum)
          + 0.5 * fork_score ((github.map (fun s => s.forks)).sum)) ∧
    (github = [] → github_component github = 50) := by
  refine ⟨?_, ?_, ?_, ?_⟩
  · intro h
    have hp := reddit_score_pos_of_mem community h
    simp only [calculate_community_score, if_pos hp]
    congr 1
    ring
  · intro h
    have hz := reddit_score_eq_zero_of_none community h
    simp only [calculate_community_score, hz]
    norm_num
  · intro h
    simp only [github_component, if_neg h]
    ring
  · intro h
    simp [github_component, h]

/-- Witness for C2: one activity snapshot and one Reddit snapshot take
the blended branch. -/
theorem C2_witness :
    calculate_community_score [ghSnapA] [cmSnapReddit] =
      min (0.4 * github_component [ghSnapA] + 0.6 * calculate_reddit_score [cmSnapReddit]) 100 :=
  (C2_community_score_blend [ghSnapA] [cmSnapReddit]).1
    ⟨cmSnapReddit, List.mem_cons_self _ _, by decide⟩

/-! ## Claim C8 -/

/-- C8: aggregation of activity snapshots is order-independent — a
permutation of the input list produces the same six summed totals — and
in particular the two concrete snapshots with stars 100 and stars 50
aggregate to `total_stars` 150 in either order. -/
theorem C8_aggregation_order_independent (l1 l2 : List GithubSnapshot)
    (hp : l1.Perm l2) :
    (RawMetrics.from_github_snapshots l1).total_stars =
      (RawMetrics.from_github_snapshots l2).total_stars ∧
    (RawMetrics.from_github_snapshots l1).total_forks =
      (RawMetrics.from_github_snapshots l2).total_forks ∧
    (RawMetrics.from_github_snapshots l1).total_contributors =
      (RawMetrics.from_github_snapshots l2).total_contributors ∧
    (RawMetrics.from_github_snapshots l1).commits_30d =
      (RawMetrics.from_github_snapshots l2).commits_30d ∧
    (RawMetrics.from_github_snapshots l1).open_issues =
      (RawMetrics.from_github_snapshots l2).open_issues ∧
    (RawMetrics.from_github_snapshots l1).open_prs =
      (RawMetrics.from_github_snapshots l2).open_prs ∧
    (RawMetrics.from_github_snapshots [ghSnapA, ghSnapB]).total_stars = 150 ∧
    (RawMetrics.from_github_snapshots [ghSnapB, ghSnapA]).total_stars = 150 :=
  ⟨(hp.map _).sum_eq, (hp.map _).sum_eq, (hp.map _).sum_eq,
    (hp.map _).sum_eq, (hp.map _).sum_eq, (hp.map _).sum_eq,
    by decide, by decide⟩

/-- Witness for C8: the two-snapshot lists in either order agree on
`total_stars`. -/
theorem C8_witness :
    (RawMetrics.from_github_snapshots [ghSnapA, ghSnapB]).total_stars =
      (RawMetrics.from_github_snapshots [ghSnapB, ghSnapA]).total_stars :=
  (C8_aggregation_order_independent [ghSnapA, ghSnapB] [ghSnapB, ghSnapA]
    (List.Perm.swap ghSnapB ghSnapA [])).1

/-- Witness for C7 at the breakpoint pair 10, 11. -/
theorem C7_witness :
    commit_score 10 ≤ commit_score 11 ∧
    contributor_score 10 ≤ contributor_score 11 ∧
    star_score 10 ≤ star_score 11 ∧
    fork_score 10 ≤ fork_score 11 ∧
    subscriber_score 10 ≤ subscriber_score 11 ∧
    activity_score 10 ≤ activity_score 11 ∧
    issue_score 11 ≤ issue_score 10 ∧
    pr_score 11 ≤ pr_score 10 ∧
    commit_score 10 = 20 ∧ commit_score 11 = 40 :=
  C7_bucket_monotonicity 10 11 (by norm_num) (by norm_num)

/-! ## Claim C9 -/

/-- C9: the scoring algorithm itself never fails — any error returned by
`calculate_health_score` wraps a store error and is never
`InsufficientData`; when every store operation succeeds the calculation
succeeds; and every shape of snapshot input yields a score record whose
sub-scores and overall score are valid (within [0,100]). -/
theorem C9_engine_never_fails (db : Database) (distro_id now : Int) :
    (∀ e, calculate_health_score db distro_id now = Except.error e →
      e ≠ AnalyzerError.insufficientData ∧ ∃ d, e = AnalyzerError.database d) ∧
    ((∃ gh, db.get_latest_github_snapshots = Except.ok gh) →
      (∃ cm, db.get_latest_community_snapshots = Except.ok cm) →
      (∃ pv, db.get_latest_health_score = Except.ok pv) →
      (∀ s, ∃ i, db.insert_health_score s = Except.ok i) →
      ∃ i, calculate_health_score db distro_id now = Except.ok i) ∧
    (∀ gh cm pv,
      (0 ≤ (compute_new_health_score distro_id gh cm pv now).development_score ∧
        (compute_new_health_score distro_id gh cm pv now).development_score ≤ 100) ∧
      (0 ≤ (compute_new_health_score distro_id gh cm pv now).community_score ∧
        (compute_new_health_score distro_id gh cm pv now).community_score ≤ 100) ∧
      (0 ≤ (compute_new_health_score distro_id gh cm pv now).maintenance_score ∧
        (compute_new_health_score distro_id gh cm pv now).maintenance_score ≤ 100) ∧
      (0 ≤ (compute_new_health_score distro_id gh cm pv now).overall_score ∧
        (compute_new_health_score distro_id gh cm pv now).overall_score ≤ 100)) := by
  refine ⟨?_, ?_, ?_⟩
  · intro e he
    unfold calculate_health_score at he
    rcases hg : db.get_latest_github_snapshots with eg | gh <;> rw [hg] at he
    · simp only [Except.error.injEq] at he
      subst he
      exact ⟨fun h => AnalyzerError.noConfusion h, eg, rfl⟩
    rcases hc : db.get_latest_community_snapshots with ec | cm <;> rw [hc] at he
    · simp only [Except.error.injEq] at he
      subst he
      exact ⟨fun h => AnalyzerError.noConfusion h, ec, rfl⟩
    rcases hp0 : db.get_latest_health_score with ep | pv <;> rw [hp0] at he
    · simp only [Except.error.injEq] at he
      subst he
      exact ⟨fun h => AnalyzerError.noConfusion h, ep, rfl⟩
    rcases hi : db.insert_health_score
        (compute_new_health_score distro_id gh cm pv now) with ei | i <;>
      simp only [hi] at he
    · simp only [Except.error.injEq] at he
      subst he
      exact ⟨fun h => AnalyzerError.noConfusion h, ei, rfl⟩
    · exact absurd he (by simp)
  · rintro ⟨gh, hg⟩ ⟨cm, hc⟩ ⟨pv, hp0⟩ hins
    obtain ⟨i, hi⟩ := hins (compute_new_health_score distro_id gh cm pv now)
    exact ⟨i, by simp only [calculate_health_score, hg, hc, hp0, hi]⟩
  · intro gh cm pv
    have hd := development_score_bounds gh
    have hc2 := community_score_bounds gh cm
    have hm2 := maintenance_score_bounds gh now
    have ho := overall_score_bounds_of hd.1 hd.2 hc2.1 hc2.2 hm2.1 hm2.2
    simp only [compute_new_health_score]
    exact ⟨hd, hc2, hm2, ho⟩

/-- Witness for C9 on a database whose operations all succeed. -/
theorem C9_witness : ∃ i, calculate_health_score dbW 7 1000 = Except.ok i :=
  (C9_engine_never_fails dbW 7 1000).2.1 ⟨[], rfl⟩ ⟨[], rfl⟩ ⟨none, rfl⟩
    (fun _ => ⟨1, rfl⟩)

/-! ## Claim C10 -/

lemma foldl_max_step_some (l : List ReleaseSnapshot) :
    ∀ a : ReleaseSnapshot, ∃ r, l.foldl max_step (some a) = some r := by
  induction l with
  | nil => intro a; exact ⟨a, rfl⟩
  | cons x xs ih =>
    intro a
    simp only [List.foldl_cons]
    by_cases hc : published_le a.published_at x.published_at = true
    · rw [show max_step (some a) x = some x from by simp [max_step, hc]]
      exact ih x
    · rw [show max_step (some a) x = some a from by simp [max_step, hc]]
      exact ih a

lemma foldl_max_step_mem (l : List ReleaseSnapshot) :
    ∀ (acc : Option ReleaseSnapshot) (r : ReleaseSnapshot),
      l.foldl max_step acc = some r → acc = some r ∨ r ∈ l := by
  induction l with
  | nil => intro acc r h; exact Or.inl h
  | cons x xs ih =>
    intro acc r h
    simp only [List.foldl_cons] at h
    rcases ih (max_step acc x) r h with h1 | h2
    · rcases acc with _ | best
      · simp only [max_step] at h1
        rw [Option.some.injEq] at h1
        subst h1
        exact Or.inr (List.mem_cons_self _ _)
      · simp only [max_step] at h1
        by_cases hc : published_le best.published_at x.published_at = true
        · rw [if_pos hc, Option.some.injEq] at h1
          subst h1
          exact Or.inr (List.mem_cons_self _ _)
        · rw [if_neg hc] at h1
          exact Or.inl h1
    · exact Or.inr (List.mem_cons_of_mem _ h2)

lemma max_by_published_mem (l : List ReleaseSnapshot) (r : ReleaseSnapshot)
    (h : max_by_published l = some r) : r ∈ l := by
  rcases foldl_max_step_mem l none r h with h1 | h2
  · exact absurd h1 (by simp)
  · exact h2

lemma max_by_published_some (l : List ReleaseSnapshot) (h : l ≠ []) :
    ∃ r, max_by_published l = some r := by
  rcases l with _ | ⟨x, xs⟩
  · exact absurd rfl h
  · unfold max_by_published
    simp only [List.foldl_cons]
    rw [show max_step none x = some x from rfl]
    exact foldl_max_step_some xs x

lemma with_releases_releases_30d (m : RawMetrics) (rs : List ReleaseSnapshot)
    (now : Int) :
    (m.with_releases rs now).releases_30d =
      (((rs.filter (fun r => !r.is_prerelease)).filter
        (fun r => (r.published_at.map (fun d => decide (now - 30 < d))).getD false)).length : Int) := by
  simp only [RawMetrics.with_releases]
  cases h : max_by_published (rs.filter (fun r => !r.is_prerelease)) with
  | none => simp
  | some latest =>
    cases hp : latest.published_at with
    | none => simp [hp]
    | some d => simp [hp]

/-- Counterexample to C10 as stated: for the single-element list holding
one prerelease (which vacuously has no non-prerelease entry with a
publish timestamp), `with_releases` does not set `latest_release` to the
tag of any non-prerelease entry — it leaves it `none`. -/
theorem C10_counterexample :
    (∀ r ∈ [relPre], r.is_prerelease = false → r.published_at = none) ∧
    ((RawMetrics.from_github_snapshots []).with_releases [relPre] 1000).latest_release
      = none ∧
    ¬ ∃ r ∈ [relPre], r.is_prerelease = false ∧
      ((RawMetrics.from_github_snapshots []).with_releases [relPre] 1000).latest_release
        = some r.tag_name := by
  decide

/-- C10 (amended): for every release list that contains at least one
non-prerelease entry and in which no non-prerelease entry carries a
publish timestamp, `with_releases` still sets `latest_release` to the
tag of a non-prerelease entry while `days_since_release` stays `None`
and `releases_30d` is 0; and in general, releases with an unknown
publish date are never counted in `releases_30d` (dropping them from the
input leaves the count unchanged). -/
theorem C10_with_releases_unknown_dates (m : RawMetrics)
    (releases : List ReleaseSnapshot) (now : Int)
    (hds : m.days_since_release = none)
    (hnp : ∀ r ∈ releases, r.is_prerelease = false → r.published_at = none)
    (hex : ∃ r ∈ releases, r.is_prerelease = false) :
    (∃ r ∈ releases, r.is_prerelease = false ∧
      (m.with_releases releases now).latest_release = some r.tag_name) ∧
    (m.with_releases releases now).days_since_release = none ∧
    (m.with_releases releases now).releases_30d = 0 ∧
    (∀ rs : List ReleaseSnapshot,
      (m.with_releases rs now).releases_30d =
        (m.with_releases (rs.filter (fun r => r.published_at.isSome)) now).releases_30d) := by
  obtain ⟨r0, hr0mem, hr0pre⟩ := hex
  have hr0f : r0 ∈ releases.filter (fun r => !r.is_prerelease) :=
    List.mem_filter.mpr ⟨hr0mem, by simp [hr0pre]⟩
  have hne : releases.filter (fun r => !r.is_prerelease) ≠ [] := by
    intro h0; rw [h0] at hr0f; exact absurd hr0f (List.not_mem_nil _)
  obtain ⟨best, hbest⟩ := max_by_published_some _ hne
  have hbf := max_by_published_mem _ _ hbest
  have hbmem : best ∈ releases := (List.mem_filter.mp hbf).1
  have hbpre : best.is_prerelease = false := by
    simpa using (List.mem_filter.mp hbf).2
  have hbpub : best.published_at = none := hnp best hbmem hbpre
  refine ⟨⟨best, hbmem, hbpre, ?_⟩, ?_, ?_, ?_⟩
  · simp [RawMetrics.with_releases, hbest, hbpub]
  · simp [RawMetrics.with_releases, hbest, hbpub, hds]
  · have hcount : (releases.filter (fun r => !r.is_prerelease)).filter
        (fun r => (r.published_at.map (fun d => decide (now - 30 < d))).getD false) = [] := by
      refine List.filter_eq_nil_iff.mpr ?_
      intro r hr
      have hm1 := List.mem_filter.mp hr
      have hpre : r.is_prerelease = false := by simpa using hm1.2
      have hnone : r.published_at = none := hnp r hm1.1 hpre
      simp [hnone]
    rw [with_releases_releases_30d, hcount]
    simp
  · intro rs
    rw [with_releases_releases_30d, with_releases_releases_30d]
    have hlist : ∀ l : List ReleaseSnapshot,
        (l.filter (fun r => !r.is_prerelease)).filter
          (fun r => (r.published_at.map (fun d => decide (now - 30 < d))).getD false) =
        ((l.filter (fun r => r.published_at.isSome)).filter (fun r => !r.is_prerelease)).filter
          (fun r => (r.published_at.map (fun d => decide (now - 30 < d))).getD false) := by
      intro l
      induction l with
      | nil => rfl
      | cons x xs ih =>
        cases hx : x.published_at with
        | none =>
          by_cases hpre : x.is_prerelease = true <;>
            simp [List.filter_cons, hx, hpre, ih]
        | some d =>
          by_cases hpre : x.is_prerelease = true <;>
          by_cases hd : now - 30 < d <;>
            simp [List.filter_cons, hx, hpre, hd, ih]
    rw [hlist rs]

/-- Witness for the amended C10 at a one-element non-prerelease list with
no publish date. -/
theorem C10_witness :
    ∃ r ∈ [relShip], r.is_prerelease = false ∧
      ((RawMetrics.from_github_snapshots []).with_releases [relShip] 1000).latest_release
        = some r.tag_name :=
  (C10_with_releases_unknown_dates (RawMetrics.from_github_snapshots []) [relShip] 1000
    (by decide) (by decide) (by decide)).1

end DistroVitals
